import Mathlib

set_option maxHeartbeats 1000000

/-!
Shallow embedding of `src/simulation/particleconversion/particleconversion.cpp`,
the Geant4 bootstrap orchestrator of the micromegas particle-conversion
simulation.  The cog-generated lines of the source are modelled by a
`BuildConf` record holding the build-time configuration values that cog
splices into the file.  `main` is modelled as a pure function from the build
configuration, the argument vector `argv` (with `argv[0]` the program name,
so `argc = argv.length`) and the build-time multithreading flag to the
resolved run configuration, the trace of side-effecting calls it performs,
and the process exit status.
-/

/-- Build-time configuration consumed by the cog directives in the source:
`macro_folder` (cog line 30), `out_filename` (cog line 43) and the optional
`macro_path` entry tested at lines 84-86 of the cog dispatch block. -/
structure BuildConf where
  macro_folder : String
  out_filename : String
  macro_path : Option String
  deriving DecidableEq, Repr

/-- The configuration resolved at startup: the `outputfileName` and
`macroFolder` variables of `main`. -/
structure RunConfiguration where
  outputfileName : String
  macroFolder : String
  deriving DecidableEq, Repr

/-- Argument resolution of `main` (lines 27-45): `macroFolder` is first set
to its build-time default by the cog line 30; `argc == 2` takes `argv[1]` as
the output file name, `argc == 3` additionally takes `argv[2]` as the macro
directory, and every other argument count falls back to the build-time
default output file name (cog line 43), keeping the default macro folder. -/
def resolveConfig (conf : BuildConf) (argv : List String) : RunConfiguration :=
  let macroFolder := conf.macro_folder
  let argc := argv.length
  if argc = 2 then
    { outputfileName := argv.getD 1 "", macroFolder := macroFolder }
  else if argc = 3 then
    { outputfileName := argv.getD 1 "", macroFolder := argv.getD 2 "" }
  else
    { outputfileName := conf.out_filename, macroFolder := macroFolder }

/-- One observable action of `main`: object constructions (`new`, identified
by allocation ids), the `SetUserInitialization` registrations with the run
manager, visualization initialization, UI-manager commands, the blocking UI
session, and the final deletions. -/
inductive Ev where
  | setRandomEngine
  | newRunManager (objId : Nat) (multithreaded : Bool)
  | newPhysics (objId : Nat)
  | registerPhysics (objId : Nat)
  | newDetector (objId : Nat)
  | registerGeometry (objId : Nat)
  | newAction (objId : Nat) (detectorRef : Nat) (outputfileName : String)
  | registerAction (objId : Nat)
  | newVis (objId : Nat)
  | visInitialize (objId : Nat)
  | newUI (objId : Nat) (argv : List String)
  | applyCommand (cmd : String)
  | sessionStart (objId : Nat)
  | deleteUI (objId : Nat)
  | deleteVis (objId : Nat)
  | deleteRunManager (objId : Nat)
  deriving DecidableEq, Repr

/-- Allocation id of the run manager constructed at line 53/55. -/
def runManagerId : Nat := 0

/-- Allocation id of the `PhysicsList` constructed at line 59. -/
def physicsId : Nat := 1

/-- Allocation id of the `DetectorConstruction` constructed at line 60. -/
def detectorId : Nat := 2

/-- Allocation id of the `ActionInitialization` constructed at line 64. -/
def actionId : Nat := 3

/-- Allocation id of the `G4VisExecutive` constructed at line 67. -/
def visId : Nat := 4

/-- Allocation id of the `G4UIExecutive` constructed in `ui_start`. -/
def uiId : Nat := 5

/-- The `ui_start` cog helper (lines 76-82): construct the `G4UIExecutive`
bound to `argc`/`argv`, apply the macro search path, execute the fixed
`vis.mac` bootstrap macro, start the blocking session, delete the UI. -/
def ui_start (argv : List String) (macroFolder : String) : List Ev :=
  [Ev.newUI uiId argv,
   Ev.applyCommand ("/control/macroPath " ++ macroFolder),
   Ev.applyCommand "/control/execute vis.mac",
   Ev.sessionStart uiId,
   Ev.deleteUI uiId]

/-- The batch branch of the cog dispatch (lines 87-89): apply the macro
search path, then execute the configured macro file. -/
def batchEvents (macro_path macroFolder : String) : List Ev :=
  [Ev.applyCommand ("/control/macroPath " ++ macroFolder),
   Ev.applyCommand ("/control/execute " ++ macro_path)]

/-- The cog dispatch (lines 84-93): the batch branch is generated iff the
build configuration has a `macro_path` entry with a non-empty value;
otherwise `ui_start` is generated. -/
def dispatch (conf : BuildConf) (argv : List String) (macroFolder : String) :
    List Ev :=
  match conf.macro_path with
  | some macro_path =>
      if macro_path ≠ "" then batchEvents macro_path macroFolder
      else ui_start argv macroFolder
  | none => ui_start argv macroFolder

/-- Lines 48-70 of `main`: choose the random engine, construct the run
manager (in the build-selected concurrency variant), perform the three
`SetUserInitialization` registrations, and construct and initialize the
visualization manager. -/
def setupEvents (outputfileName : String) (multithreaded : Bool) : List Ev :=
  [Ev.setRandomEngine,
   Ev.newRunManager runManagerId multithreaded,
   Ev.newPhysics physicsId,
   Ev.registerPhysics physicsId,
   Ev.newDetector detectorId,
   Ev.registerGeometry detectorId,
   Ev.newAction actionId detectorId outputfileName,
   Ev.registerAction actionId,
   Ev.newVis visId,
   Ev.visInitialize visId]

/-- Lines 97-98 of `main`: delete the visualization manager, then the run
manager. -/
def teardownEvents : List Ev :=
  [Ev.deleteVis visId, Ev.deleteRunManager runManagerId]

/-- The full trace of `main` (lines 26-99): setup, then the cog dispatch,
then teardown. -/
def mainTrace (conf : BuildConf) (argv : List String) (multithreaded : Bool) :
    List Ev :=
  let rc := resolveConfig conf argv
  setupEvents rc.outputfileName multithreaded
    ++ dispatch conf argv rc.macroFolder
    ++ teardownEvents

/-- The observable outcome of one invocation of `main`. -/
structure MainResult where
  config : RunConfiguration
  trace : List Ev
  status : Int
  deriving DecidableEq, Repr

/-- `main` as a function.  The source has no `return` statement (line 46
records this as a TODO), so by the C++ semantics of `main`, control falling
off the end yields exit status 0. -/
def main_run (conf : BuildConf) (argv : List String) (multithreaded : Bool) :
    MainResult :=
  { config := resolveConfig conf argv
    trace := mainTrace conf argv multithreaded
    status := 0 }

/-- The dispatch condition of the cog block: a `macro_path` entry is present
and non-empty. -/
def isBatch (conf : BuildConf) : Bool :=
  match conf.macro_path with
  | some macro_path => macro_path != ""
  | none => false

/-- A trace contains a blocking UI session start. -/
def sessionStarted (t : List Ev) : Bool :=
  t.any fun e => match e with
  | Ev.sessionStart _ => true
  | _ => false

/-- A trace constructs a `G4UIExecutive`. -/
def uiOpened (t : List Ev) : Bool :=
  t.any fun e => match e with
  | Ev.newUI _ _ => true
  | _ => false

/-- The event is one of the three `SetUserInitialization` registrations. -/
def isRegistration (e : Ev) : Bool :=
  match e with
  | Ev.registerPhysics _ => true
  | Ev.registerGeometry _ => true
  | Ev.registerAction _ => true
  | _ => false

/-- The event belongs to an execution-mode action: a UI-manager command, a
UI construction or deletion, or a session start. -/
def isModeAction (e : Ev) : Bool :=
  match e with
  | Ev.newUI _ _ => true
  | Ev.applyCommand _ => true
  | Ev.sessionStart _ => true
  | Ev.deleteUI _ => true
  | _ => false

/-- The event is a command sent to the `G4UImanager`. -/
def isInterpreterCommand (e : Ev) : Bool :=
  match e with
  | Ev.applyCommand _ => true
  | _ => false

/-- Sample build configuration with no `macro_path` entry. -/
def confNoMacro : BuildConf :=
  { macro_folder := "macros/", out_filename := "default.root",
    macro_path := none }

/-- Sample build configuration with a `macro_path` entry holding the empty
string. -/
def confEmptyMacro : BuildConf :=
  { macro_folder := "macros/", out_filename := "default.root",
    macro_path := some "" }

/-- Sample build configuration with a non-empty `macro_path` entry. -/
def confRunMacro : BuildConf :=
  { macro_folder := "macros/", out_filename := "default.root",
    macro_path := some "run.mac" }

/-- When the build configuration holds a non-empty `macro_path`, the cog
dispatch generates the batch command pair. -/
theorem dispatch_batch (conf : BuildConf) (argv : List String) (mf : String)
    (p : String) (h : conf.macro_path = some p) (hp : p ≠ "") :
    dispatch conf argv mf = batchEvents p mf := by
  simp [dispatch, h, hp]

/-- When the build configuration holds no non-empty `macro_path`, the cog
dispatch generates `ui_start`. -/
theorem dispatch_interactive (conf : BuildConf) (argv : List String)
    (mf : String) (h : isBatch conf = false) :
    dispatch conf argv mf = ui_start argv mf := by
  cases hmp : conf.macro_path with
  | none => simp [dispatch, hmp]
  | some p =>
      simp only [isBatch, hmp, bne_eq_false_iff_eq] at h
      subst h
      simp [dispatch, hmp]

theorem sessionStarted_append (s t : List Ev) :
    sessionStarted (s ++ t) = (sessionStarted s || sessionStarted t) := by
  simp [sessionStarted, List.any_append]

theorem uiOpened_append (s t : List Ev) :
    uiOpened (s ++ t) = (uiOpened s || uiOpened t) := by
  simp [uiOpened, List.any_append]

theorem sessionStarted_setup (o : String) (mt : Bool) :
    sessionStarted (setupEvents o mt) = false := rfl

theorem sessionStarted_teardown : sessionStarted teardownEvents = false := rfl

theorem sessionStarted_ui_start (argv : List String) (mf : String) :
    sessionStarted (ui_start argv mf) = true := rfl

theorem sessionStarted_batch (p mf : String) :
    sessionStarted (batchEvents p mf) = false := rfl

theorem uiOpened_setup (o : String) (mt : Bool) :
    uiOpened (setupEvents o mt) = false := rfl

theorem uiOpened_teardown : uiOpened teardownEvents = false := rfl

theorem uiOpened_batch (p mf : String) :
    uiOpened (batchEvents p mf) = false := rfl

/-- The full trace starts a session exactly when its dispatch part does. -/
theorem sessionStarted_mainTrace (conf : BuildConf) (argv : List String)
    (mt : Bool) :
    sessionStarted (mainTrace conf argv mt) =
      sessionStarted (dispatch conf argv (resolveConfig conf argv).macroFolder) := by
  simp [mainTrace, sessionStarted_append, sessionStarted_setup,
    sessionStarted_teardown]

/-- The full trace opens a UI exactly when its dispatch part does. -/
theorem uiOpened_mainTrace (conf : BuildConf) (argv : List String)
    (mt : Bool) :
    uiOpened (mainTrace conf argv mt) =
      uiOpened (dispatch conf argv (resolveConfig conf argv).macroFolder) := by
  simp [mainTrace, uiOpened_append, uiOpened_setup, uiOpened_teardown]

/-- No event generated by the cog dispatch is a registration. -/
theorem isRegistration_dispatch (conf : BuildConf) (argv : List String)
    (mf : String) :
    ∀ e ∈ dispatch conf argv mf, isRegistration e = false := by
  intro e he
  cases hmp : conf.macro_path with
  | none =>
      simp only [dispatch, hmp] at he
      simp only [ui_start, List.mem_cons, List.not_mem_nil, or_false] at he
      rcases he with rfl | rfl | rfl | rfl | rfl <;> rfl
  | some p =>
      simp only [dispatch, hmp] at he
      split at he
      · simp only [batchEvents, List.mem_cons, List.not_mem_nil, or_false] at he
        rcases he with rfl | rfl <;> rfl
      · simp only [ui_start, List.mem_cons, List.not_mem_nil, or_false] at he
        rcases he with rfl | rfl | rfl | rfl | rfl <;> rfl

/-- The three registrations appear in order inside the setup events. -/
theorem registrations_sublist_setup (o : String) (mt : Bool) :
    List.Sublist
      [Ev.registerPhysics physicsId, Ev.registerGeometry detectorId,
       Ev.registerAction actionId]
      (setupEvents o mt) := by
  unfold setupEvents
  repeat first
  | exact List.Sublist.slnil
  | apply List.Sublist.cons₂
  | apply List.Sublist.cons

/-- Detector construction, geometry registration, action construction (with
the detector reference and the output name) and action registration appear
in order inside the setup events. -/
theorem actionConstruction_sublist_setup (o : String) (mt : Bool) :
    List.Sublist
      [Ev.newDetector detectorId, Ev.registerGeometry detectorId,
       Ev.newAction actionId detectorId o, Ev.registerAction actionId]
      (setupEvents o mt) := by
  unfold setupEvents
  repeat first
  | exact List.Sublist.slnil
  | apply List.Sublist.cons₂
  | apply List.Sublist.cons

/-- Visualization construction and initialization appear in order inside the
setup events. -/
theorem vis_sublist_setup (o : String) (mt : Bool) :
    List.Sublist [Ev.newVis visId, Ev.visInitialize visId]
      (setupEvents o mt) := by
  unfold setupEvents
  repeat first
  | exact List.Sublist.slnil
  | apply List.Sublist.cons₂
  | apply List.Sublist.cons

/-- No setup event is an execution-mode action. -/
theorem setup_no_modeAction (o : String) (mt : Bool) :
    ∀ e ∈ setupEvents o mt, isModeAction e = false := by
  intro e he
  simp only [setupEvents, List.mem_cons, List.not_mem_nil, or_false] at he
  rcases he with rfl | rfl | rfl | rfl | rfl | rfl | rfl | rfl | rfl | rfl <;>
    rfl

/-- No setup event is a command to the command interpreter. -/
theorem setup_no_interpreterCommand (o : String) (mt : Bool) :
    ∀ e ∈ setupEvents o mt, isInterpreterCommand e = false := by
  intro e he
  simp only [setupEvents, List.mem_cons, List.not_mem_nil, or_false] at he
  rcases he with rfl | rfl | rfl | rfl | rfl | rfl | rfl | rfl | rfl | rfl <;>
    rfl

/-- C1: the configuration resolver yields the documented pair in each of the
three argument-count regimes: with exactly one command-line argument
(`argc = 2`) the argument is the output name and the macro directory is the
build default; with exactly two arguments they are the output name and the
macro directory; with any other count both take their build defaults. -/
theorem C1_config_resolution (conf : BuildConf) :
    (∀ prog a, resolveConfig conf [prog, a] =
      { outputfileName := a, macroFolder := conf.macro_folder }) ∧
    (∀ prog a b, resolveConfig conf [prog, a, b] =
      { outputfileName := a, macroFolder := b }) ∧
    (∀ argv : List String, argv.length ≠ 2 → argv.length ≠ 3 →
      resolveConfig conf argv =
        { outputfileName := conf.out_filename,
          macroFolder := conf.macro_folder }) := by
  refine ⟨fun prog a => rfl, fun prog a b => rfl, fun argv h2 h3 => ?_⟩
  simp [resolveConfig, h2, h3]

/-- C1 witness: with four arguments (more than two), both values fall back
to the build-time defaults. -/
theorem C1_config_resolution_witness :
    resolveConfig confNoMacro ["sim", "a.root", "mdir", "extra"] =
      { outputfileName := confNoMacro.out_filename,
        macroFolder := confNoMacro.macro_folder } :=
  (C1_config_resolution confNoMacro).2.2 ["sim", "a.root", "mdir", "extra"]
    (by decide) (by decide)

/-- C2 counterexample: two build configurations agreeing on the presence of
`macro_path` (both `some`), one holding the empty string and one a macro
name, dispatch to different paths — the empty one starts a blocking UI
session, the non-empty one does not — so the path taken is not a function
of the presence or absence of `macro_path` alone. -/
theorem C2_presence_counterexample :
    confEmptyMacro.macro_path.isSome = confRunMacro.macro_path.isSome ∧
    sessionStarted (mainTrace confEmptyMacro ["sim"] false) = true ∧
    sessionStarted (mainTrace confRunMacro ["sim"] false) = false :=
  ⟨rfl, rfl, rfl⟩

/-- C2 (amended): every run takes exactly one of the batch and interactive
dispatch paths — never both, never neither — and the choice is determined
solely by whether the configuration holds a non-empty `macro_path`. -/
theorem C2_dispatch_exclusive (conf : BuildConf) (argv : List String)
    (mf : String) (mt : Bool) :
    (isBatch conf = true ∧
      (∃ p, conf.macro_path = some p ∧ p ≠ "" ∧
        dispatch conf argv mf = batchEvents p mf) ∧
      (∀ a f, dispatch conf argv mf ≠ ui_start a f) ∧
      sessionStarted (mainTrace conf argv mt) = false)
    ∨ (isBatch conf = false ∧
      dispatch conf argv mf = ui_start argv mf ∧
      (∀ p f, dispatch conf argv mf ≠ batchEvents p f) ∧
      sessionStarted (mainTrace conf argv mt) = true) := by
  cases hb : isBatch conf with
  | true =>
      left
      obtain ⟨p, hmp, hp⟩ : ∃ p, conf.macro_path = some p ∧ p ≠ "" := by
        cases hmp : conf.macro_path with
        | none => rw [isBatch, hmp] at hb; exact absurd hb (by simp)
        | some p =>
            refine ⟨p, rfl, ?_⟩
            rw [isBatch, hmp] at hb
            simpa using hb
      have hd := dispatch_batch conf argv mf p hmp hp
      refine ⟨rfl, ⟨p, hmp, hp, hd⟩, ?_, ?_⟩
      · intro a f hcontra
        rw [hd] at hcontra
        have := congrArg List.length hcontra
        simp [batchEvents, ui_start] at this
      · rw [sessionStarted_mainTrace,
          dispatch_batch conf argv _ p hmp hp, sessionStarted_batch]
  | false =>
      right
      have hd := dispatch_interactive conf argv mf hb
      refine ⟨rfl, hd, ?_, ?_⟩
      · intro p f hcontra
        rw [hd] at hcontra
        have := congrArg List.length hcontra
        simp [batchEvents, ui_start] at this
      · rw [sessionStarted_mainTrace,
          dispatch_interactive conf argv _ hb, sessionStarted_ui_start]

/-- C2 witness: with a non-empty `macro_path`, the batch disjunct holds at a
concrete configuration. -/
theorem C2_dispatch_exclusive_witness :
    (isBatch confRunMacro = true ∧
      (∃ p, confRunMacro.macro_path = some p ∧ p ≠ "" ∧
        dispatch confRunMacro ["sim"] "macros/" = batchEvents p "macros/") ∧
      (∀ a f, dispatch confRunMacro ["sim"] "macros/" ≠ ui_start a f) ∧
      sessionStarted (mainTrace confRunMacro ["sim"] false) = false)
    ∨ (isBatch confRunMacro = false ∧
      dispatch confRunMacro ["sim"] "macros/" = ui_start ["sim"] "macros/" ∧
      (∀ p f, dispatch confRunMacro ["sim"] "macros/" ≠ batchEvents p f) ∧
      sessionStarted (mainTrace confRunMacro ["sim"] false) = true) :=
  C2_dispatch_exclusive confRunMacro ["sim"] "macros/" false

/-- C3: in every run the three subsystems are registered in the order
physics, geometry, action, and the action object is constructed after the
detector object, holding the detector's allocation id and the resolved
output artifact name, before being registered. -/
theorem C3_registration_order (conf : BuildConf) (argv : List String)
    (mt : Bool) :
    List.Sublist
      [Ev.registerPhysics physicsId, Ev.registerGeometry detectorId,
       Ev.registerAction actionId]
      (mainTrace conf argv mt) ∧
    List.Sublist
      [Ev.newDetector detectorId, Ev.registerGeometry detectorId,
       Ev.newAction actionId detectorId (resolveConfig conf argv).outputfileName,
       Ev.registerAction actionId]
      (mainTrace conf argv mt) := by
  constructor
  · exact (registrations_sublist_setup _ mt).trans
      (List.sublist_append_left _ _)
  · exact (actionConstruction_sublist_setup _ mt).trans
      (List.sublist_append_left _ _)

/-- C4: the trace splits into a prefix holding all three subsystem
registrations and containing no execution-mode action, and a suffix
containing no registration — so registration completes before any
execution-mode action runs. -/
theorem C4_registration_before_dispatch (conf : BuildConf)
    (argv : List String) (mt : Bool) :
    ∃ pre post, mainTrace conf argv mt = pre ++ post ∧
      Ev.registerPhysics physicsId ∈ pre ∧
      Ev.registerGeometry detectorId ∈ pre ∧
      Ev.registerAction actionId ∈ pre ∧
      (∀ e ∈ pre, isModeAction e = false) ∧
      (∀ e ∈ post, isRegistration e = false) := by
  refine ⟨setupEvents (resolveConfig conf argv).outputfileName mt,
    dispatch conf argv (resolveConfig conf argv).macroFolder ++ teardownEvents,
    rfl, ?_, ?_, ?_, setup_no_modeAction _ mt, ?_⟩
  · simp [setupEvents]
  · simp [setupEvents]
  · simp [setupEvents]
  · intro e he
    rw [List.mem_append] at he
    rcases he with he | he
    · exact isRegistration_dispatch conf argv _ e he
    · simp only [teardownEvents, List.mem_cons, List.not_mem_nil,
        or_false] at he
      rcases he with rfl | rfl <;> rfl

/-- C4 witness: the split exists at a concrete batch configuration. -/
theorem C4_registration_before_dispatch_witness :
    ∃ pre post, mainTrace confRunMacro ["sim"] true = pre ++ post ∧
      Ev.registerPhysics physicsId ∈ pre ∧
      Ev.registerGeometry detectorId ∈ pre ∧
      Ev.registerAction actionId ∈ pre ∧
      (∀ e ∈ pre, isModeAction e = false) ∧
      (∀ e ∈ post, isRegistration e = false) :=
  C4_registration_before_dispatch confRunMacro ["sim"] true

/-- C5: whenever the interactive path is taken, the dispatcher opens the UI
session bound to the invocation arguments, applies the macro directory as
search path, executes the fixed `vis.mac` bootstrap macro, starts the
blocking session, and deletes the UI when it ends — in exactly that order. -/
theorem C5_interactive_sequence (conf : BuildConf) (argv : List String)
    (mf : String) (h : isBatch conf = false) :
    dispatch conf argv mf =
      [Ev.newUI uiId argv,
       Ev.applyCommand ("/control/macroPath " ++ mf),
       Ev.applyCommand "/control/execute vis.mac",
       Ev.sessionStart uiId,
       Ev.deleteUI uiId] :=
  dispatch_interactive conf argv mf h

/-- C5 witness: the interactive sequence at a configuration with no
`macro_path` entry. -/
theorem C5_interactive_sequence_witness :
    dispatch confNoMacro ["sim"] "macros/" =
      [Ev.newUI uiId ["sim"],
       Ev.applyCommand ("/control/macroPath " ++ "macros/"),
       Ev.applyCommand "/control/execute vis.mac",
       Ev.sessionStart uiId,
       Ev.deleteUI uiId] :=
  C5_interactive_sequence confNoMacro ["sim"] "macros/" rfl

/-- C6: whenever the batch path is taken, the dispatcher applies the macro
directory as search path and then executes the configured macro file, and
the run never constructs a UI nor starts a session. -/
theorem C6_batch_sequence (conf : BuildConf) (argv : List String) (mt : Bool)
    (p : String) (h : conf.macro_path = some p) (hp : p ≠ "") :
    dispatch conf argv (resolveConfig conf argv).macroFolder =
      [Ev.applyCommand
         ("/control/macroPath " ++ (resolveConfig conf argv).macroFolder),
       Ev.applyCommand ("/control/execute " ++ p)] ∧
    uiOpened (mainTrace conf argv mt) = false ∧
    sessionStarted (mainTrace conf argv mt) = false := by
  have hd := dispatch_batch conf argv (resolveConfig conf argv).macroFolder
    p h hp
  refine ⟨hd, ?_, ?_⟩
  · rw [uiOpened_mainTrace, hd, uiOpened_batch]
  · rw [sessionStarted_mainTrace, hd, sessionStarted_batch]

/-- C6 witness: the batch sequence at a configuration with
`macro_path = "run.mac"`. -/
theorem C6_batch_sequence_witness :
    dispatch confRunMacro ["sim"] (resolveConfig confRunMacro ["sim"]).macroFolder =
      [Ev.applyCommand
         ("/control/macroPath " ++ (resolveConfig confRunMacro ["sim"]).macroFolder),
       Ev.applyCommand ("/control/execute " ++ "run.mac")] ∧
    uiOpened (mainTrace confRunMacro ["sim"] false) = false ∧
    sessionStarted (mainTrace confRunMacro ["sim"] false) = false :=
  C6_batch_sequence confRunMacro ["sim"] false "run.mac" rfl (by decide)

/-- C7: the trace splits into a prefix in which the visualization manager is
constructed and then initialized and that contains no command-interpreter
command, and the rest — so the visualization service is live before any
macro command executes, on either path. -/
theorem C7_vis_before_commands (conf : BuildConf) (argv : List String)
    (mt : Bool) :
    ∃ pre post, mainTrace conf argv mt = pre ++ post ∧
      List.Sublist [Ev.newVis visId, Ev.visInitialize visId] pre ∧
      (∀ e ∈ pre, isInterpreterCommand e = false) :=
  ⟨setupEvents (resolveConfig conf argv).outputfileName mt,
   dispatch conf argv (resolveConfig conf argv).macroFolder ++ teardownEvents,
   rfl, vis_sublist_setup _ mt, setup_no_interpreterCommand _ mt⟩

/-- C7 witness: the split exists at a concrete interactive configuration. -/
theorem C7_vis_before_commands_witness :
    ∃ pre post, mainTrace confNoMacro ["sim"] false = pre ++ post ∧
      List.Sublist [Ev.newVis visId, Ev.visInitialize visId] pre ∧
      (∀ e ∈ pre, isInterpreterCommand e = false) :=
  C7_vis_before_commands confNoMacro ["sim"] false

/-- C8: every trace ends with the deletion of the visualization manager
followed by the deletion of the run manager, and the whole dispatch block
lies before that teardown — so teardown releases the visualization service
before the run manager, after the dispatcher completes, on either path. -/
theorem C8_teardown_order (conf : BuildConf) (argv : List String)
    (mt : Bool) :
    ∃ pre, mainTrace conf argv mt =
        pre ++ [Ev.deleteVis visId, Ev.deleteRunManager runManagerId] ∧
      List.Sublist (dispatch conf argv (resolveConfig conf argv).macroFolder)
        pre := by
  refine ⟨setupEvents (resolveConfig conf argv).outputfileName mt ++
      dispatch conf argv (resolveConfig conf argv).macroFolder, ?_, ?_⟩
  · simp [mainTrace, teardownEvents]
  · exact List.sublist_append_right _ _

/-- C9: a `macro_path` entry holding the empty string takes the interactive
path: the dispatch equals `ui_start` and the whole run trace coincides with
the trace of the same configuration with the entry absent. -/
theorem C9_empty_macro_interactive (conf : BuildConf) (argv : List String)
    (mt : Bool) (h : conf.macro_path = some "") :
    dispatch conf argv (resolveConfig conf argv).macroFolder =
      ui_start argv (resolveConfig conf argv).macroFolder ∧
    mainTrace conf argv mt =
      mainTrace { conf with macro_path := none } argv mt := by
  constructor
  · exact dispatch_interactive conf argv _ (by simp [isBatch, h])
  · simp [mainTrace, resolveConfig, dispatch, h]

/-- C9 witness: the present-but-empty configuration behaves as the absent
one. -/
theorem C9_empty_macro_interactive_witness :
    dispatch confEmptyMacro ["sim"] (resolveConfig confEmptyMacro ["sim"]).macroFolder =
      ui_start ["sim"] (resolveConfig confEmptyMacro ["sim"]).macroFolder ∧
    mainTrace confEmptyMacro ["sim"] true =
      mainTrace { confEmptyMacro with macro_path := none } ["sim"] true :=
  C9_empty_macro_interactive confEmptyMacro ["sim"] true rfl

/-- C10: every run of `main` ends with exit status 0, on any configuration,
argument vector and concurrency variant. -/
theorem C10_exit_status (conf : BuildConf) (argv : List String) (mt : Bool) :
    (main_run conf argv mt).status = 0 := rfl
